import Mathlib

/-!
Shallow embedding of the message-relay core of the RPL-App portal server
(`server/index.js` together with the schema from `server/database.js`).
The embedding models the chat submission endpoint `POST /api/chat/:agentId`,
the webhook forwarder (a single `axios.post` with a 10 s timeout), the
Socket.IO delivery channel (rooms keyed by client identity), the history
endpoint, and the cascade-delete behaviour of the schema.
-/

namespace RPL

/-- Row of the `clients` table (`database.js`): id, unique username/email,
optional company name and client-level webhook URL. -/
structure Client where
  id : Nat
  username : String
  email : String
  company_name : Option String
  webhook_url : Option String
deriving Repr, DecidableEq

/-- Row of the `agents` table: owned by one client (`client_id` foreign key,
ON DELETE CASCADE), optional webhook URL, `is_active` defaults to true. -/
structure Agent where
  id : Nat
  client_id : Nat
  name : String
  description : Option String
  webhook_url : Option String
  is_active : Bool
deriving Repr, DecidableEq

/-- Row of the `messages` table: owning client and target agent (both
foreign keys with ON DELETE CASCADE), request text, nullable response,
creation timestamp. -/
structure Message where
  id : Nat
  client_id : Nat
  agent_id : Nat
  message : String
  response : Option String
  timestamp : Nat
deriving Repr, DecidableEq

/-- The database state: the three tables the relay path touches. -/
structure DB where
  clients : List Client
  agents : List Agent
  messages : List Message
deriving Repr, DecidableEq

/-! ### Fixed strings of the relay path (`server/index.js`) -/

/-- Fallback used when the webhook reply has neither a truthy `response`
nor a truthy `message` field. -/
def receivedMsg : String := "Agent response received"

/-- Response persisted and delivered when the webhook call fails. -/
def unavailableMsg : String := "Sorry, the agent is currently unavailable."

/-- Response persisted and delivered when the agent has no webhook URL. -/
def noWebhookMsg : String := "This agent is not configured with a webhook yet."

/-- Acknowledgement text of the synchronous HTTP response. -/
def sentOkMsg : String := "Message sent successfully"

/-- 404 body when the agent does not exist or is not owned by the caller. -/
def agentNotFoundMsg : String := "Agent not found"

/-- 400 body when the agent exists but its active flag is false. -/
def agentInactiveMsg : String := "Agent is not active"

/-- 400 body when the request body has no (truthy) `message` field. -/
def messageRequiredMsg : String := "Message required"

/-! ### JavaScript truthiness on optional strings

The server uses `a || b` and `if (x)` on string-valued fields; for a
string field, `undefined`/`null` and the empty string are the falsy cases. -/

/-- JS `x || d` for an optional string `x`: yields `d` when `x` is absent
or the empty string. -/
def jsOrString : Option String → String → String
  | some s, d => if s = "" then d else s
  | none, d => d

/-- JS truthiness of an optional string: false for absent and for `""`. -/
def jsTruthy : Option String → Bool
  | some s => !(s == "")
  | none => false

/-! ### Webhook forwarder (`axios.post(agent.webhook_url, payload, { timeout: 10000 })`) -/

/-- The reply body the relay inspects: an object with optional `response`
and `message` string fields. -/
structure ReplyBody where
  response : Option String
  message : Option String
deriving Repr, DecidableEq

/-- Behaviour of the external webhook endpoint during the single call:
it replies with some HTTP status and body within the bound, or the call
times out, or the connection fails. -/
inductive WebhookBehavior where
  | replies (status : Nat) (body : ReplyBody)
  | timeout
  | connError
deriving Repr, DecidableEq

/-- Outcome classification of the single outbound call. -/
inductive ForwardOutcome where
  | answered (body : ReplyBody)
  | failed
deriving Repr, DecidableEq

/-- The fixed wall-clock bound on the outbound call, in milliseconds
(`timeout: 10000`). -/
def axiosTimeoutMs : Nat := 10000

/-- Axios resolves the promise only for 2xx statuses (default
`validateStatus`); timeouts, connection errors and non-2xx statuses all
reject and land in the `.catch` handler. -/
def forward : WebhookBehavior → ForwardOutcome
  | .replies status body =>
      if 200 ≤ status ∧ status < 300 then .answered body else .failed
  | .timeout => .failed
  | .connError => .failed

/-- Extraction of the human-readable response text from the reply body:
`response.data.response || response.data.message || 'Agent response received'`. -/
def extractResponseText (body : ReplyBody) : String :=
  jsOrString body.response (jsOrString body.message receivedMsg)

/-! ### Realtime delivery channel (Socket.IO rooms) -/

/-- Room membership: pairs (socket identifier, client identity). Joining
the room named after a client identity is recorded as membership of it;
Socket.IO rooms are sets, so joining is idempotent per pair. -/
abbrev Registry : Type := List (Nat × Nat)

/-- The `join_client_room` handler: the socket joins the room named after
the claimed client identity, with no authentication or ownership check —
the identity is taken as-is from the event payload. -/
def joinClientRoom (reg : Registry) (socketId clientId : Nat) : Registry :=
  if (socketId, clientId) ∈ reg then reg else (socketId, clientId) :: reg

/-- The `agent_response` event payload. -/
structure AgentResponseEvent where
  messageId : Nat
  agentId : Nat
  response : String
deriving Repr, DecidableEq

/-- Emitting `agent_response` to the client's room: the event is sent to
every socket currently in the room; with no member the emit is a no-op
(no buffering, no error — `io.to(room).emit` never fails). -/
def deliver (reg : Registry) (clientId : Nat) (ev : AgentResponseEvent) :
    List (Nat × AgentResponseEvent) :=
  (reg.filter (fun p => p.2 == clientId)).map (fun p => (p.1, ev))

/-! ### Relay coordinator (`app.post('/api/chat/:agentId')`) -/

/-- Payload of the single outbound webhook call (fixed shape). -/
structure WebhookPayload where
  message : String
  client_id : Nat
  agent_id : Nat
  message_id : Nat
  timestamp : Nat
deriving Repr, DecidableEq

/-- Observable steps in one message's lifecycle, in the order they occur. -/
inductive RelayEvent where
  | messageCreated (messageId : Nat)
  | webhookCalled (payload : WebhookPayload) (timeoutMs : Nat)
  | resolutionPersisted (messageId : Nat) (text : String)
  | deliveredEvent (clientId : Nat) (ev : AgentResponseEvent)
deriving Repr, DecidableEq

/-- Error replies of the chat endpoint before any row is inserted. -/
inductive ChatError where
  | validation (msg : String)
  | notFound (msg : String)
deriving Repr, DecidableEq

/-- The synchronous HTTP success body: `res.json` with the new message id
and the fixed acknowledgement text. It carries only these two fields —
never the response text. -/
structure ChatOk where
  messageId : Nat
  message : String
deriving Repr, DecidableEq

/-- Result of a successful submission: the HTTP body returned to the
caller, the database after the relay settles, the lifecycle trace, and
the realtime deliveries performed. -/
structure SubmitResult where
  http : ChatOk
  db : DB
  trace : List RelayEvent
  deliveries : List (Nat × AgentResponseEvent)
deriving Repr, DecidableEq

/-- Largest message id in use (0 when the table is empty). -/
def maxId : List Message → Nat
  | [] => 0
  | m :: ms => max m.id (maxId ms)

/-- The next SERIAL id the INSERT returns. -/
def nextId (msgs : List Message) : Nat := maxId msgs + 1

/-- Lookup `SELECT * FROM agents WHERE id = $1 AND client_id = $2` (first row). -/
def findAgent (agents : List Agent) (agentId clientId : Nat) : Option Agent :=
  agents.find? (fun a => a.id == agentId && a.client_id == clientId)

/-- Update `UPDATE messages SET response = $1 WHERE id = $2` — note: no guard on
the current value, so an already-set response is overwritten. -/
def resolveMessage (msgs : List Message) (messageId : Nat) (text : String) :
    List Message :=
  msgs.map (fun m => if m.id == messageId then { m with response := some text } else m)

/-- Lookup `SELECT * FROM messages WHERE id = $1` (first row). -/
def getMessage (msgs : List Message) (messageId : Nat) : Option Message :=
  msgs.find? (fun m => m.id == messageId)

/-- The response text chosen when the outbound call settles: the `.then`
handler extracts it from the reply body, the `.catch` handler substitutes
the fixed unavailability string. -/
def settleText (behavior : WebhookBehavior) : String :=
  match forward behavior with
  | .answered body => extractResponseText body
  | .failed => unavailableMsg

/-- The chat submission endpoint. `behavior` is how the external webhook
endpoint acts during the single outbound call (consulted only when the
agent has a truthy webhook URL); `now` is the creation timestamp. The
returned `SubmitResult` reflects the state after the fire-and-forget
webhook callback has settled. -/
def submit (db : DB) (reg : Registry) (clientId agentId : Nat) (text : String)
    (now : Nat) (behavior : WebhookBehavior) : Except ChatError SubmitResult :=
  if text = "" then .error (.validation messageRequiredMsg)
  else
    match findAgent db.agents agentId clientId with
    | none => .error (.notFound agentNotFoundMsg)
    | some agent =>
      if !agent.is_active then .error (.validation agentInactiveMsg)
      else
        let messageId := nextId db.messages
        let newMsg : Message :=
          { id := messageId, client_id := clientId, agent_id := agentId,
            message := text, response := none, timestamp := now }
        let msgs0 := db.messages ++ [newMsg]
        if jsTruthy agent.webhook_url then
          let payload : WebhookPayload :=
            { message := text, client_id := clientId, agent_id := agentId,
              message_id := messageId, timestamp := now }
          let responseText := settleText behavior
          let ev : AgentResponseEvent :=
            { messageId := messageId, agentId := agentId, response := responseText }
          .ok { http := { messageId := messageId, message := sentOkMsg },
                db := { db with messages := resolveMessage msgs0 messageId responseText },
                trace := [.messageCreated messageId,
                          .webhookCalled payload axiosTimeoutMs,
                          .resolutionPersisted messageId responseText,
                          .deliveredEvent clientId ev],
                deliveries := deliver reg clientId ev }
        else
          let ev : AgentResponseEvent :=
            { messageId := messageId, agentId := agentId, response := noWebhookMsg }
          .ok { http := { messageId := messageId, message := sentOkMsg },
                db := { db with messages := resolveMessage msgs0 messageId noWebhookMsg },
                trace := [.messageCreated messageId,
                          .resolutionPersisted messageId noWebhookMsg,
                          .deliveredEvent clientId ev],
                deliveries := deliver reg clientId ev }

/-- The message table as left by a submission (unchanged on rejection:
every error return happens before the INSERT). -/
def submitMessages (db : DB) (reg : Registry) (clientId agentId : Nat)
    (text : String) (now : Nat) (behavior : WebhookBehavior) : List Message :=
  match submit db reg clientId agentId text now behavior with
  | .error _ => db.messages
  | .ok r => r.db.messages

/-- History fetch `GET /api/chat/:agentId/history`:
`SELECT * FROM messages WHERE client_id = $1 AND agent_id = $2 ORDER BY timestamp ASC`. -/
def history (db : DB) (clientId agentId : Nat) : List Message :=
  (db.messages.filter (fun m => m.client_id == clientId && m.agent_id == agentId)).insertionSort
    (fun a b => a.timestamp ≤ b.timestamp)

/-! ### Cascade deletes (schema: ON DELETE CASCADE) -/

/-- Cascade of `DELETE FROM clients WHERE id = $1`: the client row goes, the cascade
removes every agent owned by it, and every message owned by the client or
referencing one of those agents. -/
def deleteClient (db : DB) (clientId : Nat) : DB :=
  { clients := db.clients.filter (fun c => !(c.id == clientId)),
    agents := db.agents.filter (fun a => !(a.client_id == clientId)),
    messages := db.messages.filter (fun m =>
      !(m.client_id == clientId) &&
      !(db.agents.any (fun a => a.id == m.agent_id && a.client_id == clientId))) }

/-- Cascade of `DELETE FROM agents WHERE id = $1 AND client_id = $2`: when a row
matches it is removed and the cascade removes every message referencing
it; when none matches (404) the state is unchanged. -/
def deleteAgent (db : DB) (agentId clientId : Nat) : DB :=
  if db.agents.any (fun a => a.id == agentId && a.client_id == clientId) then
    { db with
      agents := db.agents.filter (fun a => !(a.id == agentId && a.client_id == clientId)),
      messages := db.messages.filter (fun m => !(m.agent_id == agentId)) }
  else db

/-- Referential integrity: every agent references an existing client and
every message references an existing client and an existing agent. -/
def Integrity (db : DB) : Prop :=
  (∀ a ∈ db.agents, ∃ c ∈ db.clients, c.id = a.client_id) ∧
  (∀ m ∈ db.messages,
    (∃ c ∈ db.clients, c.id = m.client_id) ∧ (∃ a ∈ db.agents, a.id = m.agent_id))

/-! ### Concrete fixtures (used by witness and counterexample theorems) -/

/-- A sample tenant. -/
def clientSeven : Client :=
  { id := 7, username := "c", email := "c@x", company_name := none,
    webhook_url := none }

/-- Active agent of client 7 with a webhook URL. -/
def agentOne : Agent :=
  { id := 1, client_id := 7, name := "a", description := none,
    webhook_url := some "hw", is_active := true }

/-- Active agent of client 7 without a webhook URL. -/
def agentTwo : Agent :=
  { id := 2, client_id := 7, name := "b", description := none,
    webhook_url := none, is_active := true }

/-- Inactive agent of client 7. -/
def agentThree : Agent :=
  { id := 3, client_id := 7, name := "d", description := none,
    webhook_url := some "hw", is_active := false }

/-- Agent owned by a different client (id 8). -/
def agentFour : Agent :=
  { id := 4, client_id := 8, name := "e", description := none,
    webhook_url := some "hw", is_active := true }

/-- A second tenant who owns `agentFour`. -/
def clientEight : Client :=
  { id := 8, username := "c8", email := "c8@x", company_name := none,
    webhook_url := none }

/-- Sample database with the fixtures above and an empty message table. -/
def dbSample : DB :=
  { clients := [clientSeven, clientEight],
    agents := [agentOne, agentTwo, agentThree, agentFour], messages := [] }

/-- A sample realtime event. -/
def evSample : AgentResponseEvent :=
  { messageId := 1, agentId := 1, response := "x" }

/-! ### Helper lemmas -/

lemma id_le_maxId {msgs : List Message} {m : Message} (h : m ∈ msgs) :
    m.id ≤ maxId msgs := by
  induction msgs with
  | nil => cases h
  | cons x xs ih =>
    rcases List.mem_cons.mp h with rfl | h2
    · simp only [maxId]
      exact le_max_left _ _
    · simp only [maxId]
      exact le_trans (ih h2) (le_max_right _ _)

lemma id_ne_nextId {msgs : List Message} {m : Message} (h : m ∈ msgs) :
    m.id ≠ nextId msgs :=
  Nat.ne_of_lt (Nat.lt_succ_of_le (id_le_maxId h))

lemma resolveMessage_not_mem (msgs : List Message) (i : Nat) (t : String)
    (h : ∀ m ∈ msgs, m.id ≠ i) : resolveMessage msgs i t = msgs := by
  induction msgs with
  | nil => rfl
  | cons x xs ih =>
    have hx : x.id ≠ i := h x (List.mem_cons_self x xs)
    have ih2 := ih (fun m hm => h m (List.mem_cons_of_mem x hm))
    simp only [resolveMessage] at ih2 ⊢
    simp only [beq_iff_eq] at ih2
    simp [hx, ih2]

lemma resolveMessage_append_fresh (msgs : List Message) (nm : Message) (t : String)
    (h : ∀ m ∈ msgs, m.id ≠ nm.id) :
    resolveMessage (msgs ++ [nm]) nm.id t = msgs ++ [{ nm with response := some t }] := by
  have h1 : resolveMessage (msgs ++ [nm]) nm.id t
      = resolveMessage msgs nm.id t ++ resolveMessage [nm] nm.id t :=
    List.map_append _ _ _
  rw [h1, resolveMessage_not_mem msgs nm.id t h]
  simp [resolveMessage]

lemma getMessage_append_last (msgs : List Message) (nm : Message)
    (h : ∀ m ∈ msgs, m.id ≠ nm.id) :
    getMessage (msgs ++ [nm]) nm.id = some nm := by
  induction msgs with
  | nil => simp [getMessage]
  | cons x xs ih =>
    have hx : (x.id == nm.id) = false :=
      beq_eq_false_iff_ne.mpr (h x (List.mem_cons_self x xs))
    have ih2 := ih (fun m hm => h m (List.mem_cons_of_mem x hm))
    simp only [getMessage, List.cons_append, List.find?_cons, hx] at ih2 ⊢
    exact ih2

lemma mem_history {db : DB} {m : Message} {clientId agentId : Nat}
    (hm : m ∈ db.messages) (hc : m.client_id = clientId) (ha : m.agent_id = agentId) :
    m ∈ history db clientId agentId := by
  unfold history
  have hmem : m ∈ db.messages.filter
      (fun m => m.client_id == clientId && m.agent_id == agentId) :=
    List.mem_filter.mpr ⟨hm, by simp [hc, ha]⟩
  exact ((List.perm_insertionSort _ _).mem_iff).mpr hmem

lemma submit_webhook_eq (db : DB) (reg : Registry) (clientId agentId : Nat)
    (text : String) (now : Nat) (behavior : WebhookBehavior) (agent : Agent)
    (htext : text ≠ "")
    (hfind : findAgent db.agents agentId clientId = some agent)
    (hact : agent.is_active = true)
    (hweb : jsTruthy agent.webhook_url = true) :
    submit db reg clientId agentId text now behavior =
      .ok { http := { messageId := nextId db.messages, message := sentOkMsg },
            db := { db with messages :=
              (resolveMessage
                (db.messages ++
                  [{ id := nextId db.messages, client_id := clientId,
                     agent_id := agentId, message := text, response := none,
                     timestamp := now }])
                (nextId db.messages) (settleText behavior)) },
            trace := [.messageCreated (nextId db.messages),
                      .webhookCalled
                        { message := text, client_id := clientId,
                          agent_id := agentId, message_id := nextId db.messages,
                          timestamp := now } axiosTimeoutMs,
                      .resolutionPersisted (nextId db.messages) (settleText behavior),
                      .deliveredEvent clientId
                        { messageId := nextId db.messages, agentId := agentId,
                          response := settleText behavior }],
            deliveries := deliver reg clientId
              { messageId := nextId db.messages, agentId := agentId,
                response := settleText behavior } } := by
  simp [submit, htext, hfind, hact, hweb]

lemma submit_nowebhook_eq (db : DB) (reg : Registry) (clientId agentId : Nat)
    (text : String) (now : Nat) (behavior : WebhookBehavior) (agent : Agent)
    (htext : text ≠ "")
    (hfind : findAgent db.agents agentId clientId = some agent)
    (hact : agent.is_active = true)
    (hweb : jsTruthy agent.webhook_url = false) :
    submit db reg clientId agentId text now behavior =
      .ok { http := { messageId := nextId db.messages, message := sentOkMsg },
            db := { db with messages :=
              (resolveMessage
                (db.messages ++
                  [{ id := nextId db.messages, client_id := clientId,
                     agent_id := agentId, message := text, response := none,
                     timestamp := now }])
                (nextId db.messages) noWebhookMsg) },
            trace := [.messageCreated (nextId db.messages),
                      .resolutionPersisted (nextId db.messages) noWebhookMsg,
                      .deliveredEvent clientId
                        { messageId := nextId db.messages, agentId := agentId,
                          response := noWebhookMsg }],
            deliveries := deliver reg clientId
              { messageId := nextId db.messages, agentId := agentId,
                response := noWebhookMsg } } := by
  simp [submit, htext, hfind, hact, hweb]

lemma submit_resolved_messages (db : DB) (clientId agentId : Nat)
    (text : String) (now : Nat) (t : String) :
    resolveMessage
        (db.messages ++
          [{ id := nextId db.messages, client_id := clientId,
             agent_id := agentId, message := text, response := none,
             timestamp := now }])
        (nextId db.messages) t =
      db.messages ++
        [{ id := nextId db.messages, client_id := clientId,
           agent_id := agentId, message := text, response := some t,
           timestamp := now }] :=
  resolveMessage_append_fresh _ _ _ (fun _ hm => id_ne_nextId hm)

lemma submit_resolved_lookup (db : DB) (clientId agentId : Nat)
    (text : String) (now : Nat) (t : String) :
    getMessage
        (db.messages ++
          [{ id := nextId db.messages, client_id := clientId,
             agent_id := agentId, message := text, response := some t,
             timestamp := now }])
        (nextId db.messages) =
      some { id := nextId db.messages, client_id := clientId,
             agent_id := agentId, message := text, response := some t,
             timestamp := now } :=
  getMessage_append_last _ _ (fun _ hm => id_ne_nextId hm)

lemma getMessage_nextId (msgs : List Message) : getMessage msgs (nextId msgs) = none :=
  List.find?_eq_none.mpr (fun m hm => by simpa using id_ne_nextId hm)

lemma extract_response_truthy {body : ReplyBody} {x : String}
    (h : body.response = some x) (hx : x ≠ "") : extractResponseText body = x := by
  simp [extractResponseText, jsOrString, h, hx]

lemma extract_message_truthy {body : ReplyBody} {y : String}
    (hr : jsTruthy body.response = false) (h : body.message = some y) (hy : y ≠ "") :
    extractResponseText body = y := by
  cases hres : body.response with
  | none => simp [extractResponseText, jsOrString, hres, h, hy]
  | some s =>
    have hs : s = "" := by simpa [jsTruthy, hres] using hr
    simp [extractResponseText, jsOrString, hres, hs, h, hy]

lemma extract_fallback {body : ReplyBody}
    (hr : jsTruthy body.response = false) (hm : jsTruthy body.message = false) :
    extractResponseText body = receivedMsg := by
  cases hres : body.response with
  | none =>
    cases hmsg : body.message with
    | none => simp [extractResponseText, jsOrString, hres, hmsg]
    | some s =>
      have hs : s = "" := by simpa [jsTruthy, hmsg] using hm
      simp [extractResponseText, jsOrString, hres, hmsg, hs]
  | some s =>
    have hs : s = "" := by simpa [jsTruthy, hres] using hr
    cases hmsg : body.message with
    | none => simp [extractResponseText, jsOrString, hres, hmsg, hs]
    | some s2 =>
      have hs2 : s2 = "" := by simpa [jsTruthy, hmsg] using hm
      simp [extractResponseText, jsOrString, hres, hmsg, hs, hs2]

lemma deliver_snd {reg : Registry} {c : Nat} {ev : AgentResponseEvent}
    {d : Nat × AgentResponseEvent} (h : d ∈ deliver reg c ev) : d.2 = ev := by
  unfold deliver at h
  rcases List.mem_map.mp h with ⟨p, _, rfl⟩
  rfl

lemma deliver_empty {reg : Registry} {c : Nat} (h : ∀ s, (s, c) ∉ reg)
    (ev : AgentResponseEvent) : deliver reg c ev = [] := by
  unfold deliver
  have hf : reg.filter (fun p => p.2 == c) = [] := by
    apply List.filter_eq_nil_iff.mpr
    rintro ⟨a, b⟩ hp
    simp only [beq_iff_eq]
    intro hb
    subst hb
    exact h a hp
  simp [hf]

lemma resolveMessage_twice_overwrite (msgs : List Message) (i : Nat)
    (t1 t2 : String) (m : Message)
    (hm : m ∈ resolveMessage (resolveMessage msgs i t1) i t2) (hid : m.id = i) :
    m.response = some t2 := by
  unfold resolveMessage at hm
  rcases List.mem_map.mp hm with ⟨m1, _, rfl⟩
  by_cases h : m1.id = i
  · simp [h]
  · simp only [beq_iff_eq, if_neg h] at hid ⊢
    exact absurd hid h

lemma settleText_answered {behavior : WebhookBehavior} {body : ReplyBody}
    (h : forward behavior = .answered body) :
    settleText behavior = extractResponseText body := by
  simp [settleText, h]

lemma settleText_failed {behavior : WebhookBehavior}
    (h : forward behavior = .failed) : settleText behavior = unavailableMsg := by
  simp [settleText, h]

/-! ### Claim theorems -/

/-- Claim C1, counterexample: the claim says the persisted and delivered
text is the reply body's `response` field whenever that field is present,
and that a reply of the form with `response` equal to a string X yields
X. The code uses JavaScript `||`, for which the empty string is falsy: at
the concrete reply whose `response` field is present and equal to `""`
and whose `message` field is `"Y"`, the persisted text and the delivered
event carry `"Y"`, not the present `response` value `""`. -/
theorem response_precedence_empty_counterexample :
    ((submit dbSample [] 7 1 "hello" 5
        (.replies 200 { response := some "", message := some "Y" })).toOption.map
      (fun r => (r.db.messages.map Message.response,
                 r.trace.filter (fun e => match e with
                   | RelayEvent.deliveredEvent _ _ => true
                   | _ => false)))) =
      some ([some "Y"],
            [RelayEvent.deliveredEvent 7
              { messageId := 1, agentId := 1, response := "Y" }]) ∧
    ("Y" : String) ≠ "" := ⟨rfl, by decide⟩

/-- Claim C1 (amended): for every submission whose Forwarder call settles
successfully, the persisted and delivered response string is chosen by
fixed precedence over *truthy* (present and non-empty) fields: the reply
body's `response` field if present and non-empty, else its `message`
field if present and non-empty, else the fixed placeholder; in
particular a reply with `response` equal to a non-empty X yields X, and
a reply with falsy `response` and `message` equal to a non-empty X
yields X. -/
theorem relay_success_response_precedence
    (db : DB) (reg : Registry) (clientId agentId : Nat) (text : String)
    (now : Nat) (behavior : WebhookBehavior) (agent : Agent) (body : ReplyBody)
    (htext : text ≠ "")
    (hfind : findAgent db.agents agentId clientId = some agent)
    (hact : agent.is_active = true)
    (hweb : jsTruthy agent.webhook_url = true)
    (hfwd : forward behavior = .answered body) :
    ∃ r, submit db reg clientId agentId text now behavior = .ok r ∧
      (∃ m, getMessage r.db.messages r.http.messageId = some m ∧
        m.response = some (extractResponseText body)) ∧
      (∀ d ∈ r.deliveries, d.2.response = extractResponseText body) ∧
      (∀ x, body.response = some x → x ≠ "" → extractResponseText body = x) ∧
      (jsTruthy body.response = false →
        ∀ y, body.message = some y → y ≠ "" → extractResponseText body = y) ∧
      (jsTruthy body.response = false → jsTruthy body.message = false →
        extractResponseText body = receivedMsg) := by
  refine ⟨_, submit_webhook_eq db reg clientId agentId text now behavior agent
      htext hfind hact hweb, ?_, ?_, ?_, ?_, ?_⟩
  · dsimp only
    rw [settleText_answered hfwd, submit_resolved_messages]
    exact ⟨_, submit_resolved_lookup db clientId agentId text now _, rfl⟩
  · intro d hd
    have h2 := deliver_snd hd
    rw [h2]
    exact settleText_answered hfwd
  · exact fun x hx hxe => extract_response_truthy hx hxe
  · exact fun hr y hy hye => extract_message_truthy hr hy hye
  · exact fun hr hm => extract_fallback hr hm

/-- Witness for C1: concrete run against `dbSample` where the webhook
replies with status 200 and a `response` field of "hi". -/
theorem relay_success_response_precedence_witness :
    ∃ r, submit dbSample [] 7 1 "hello" 5
        (.replies 200 { response := some "hi", message := none }) = .ok r ∧
      (∃ m, getMessage r.db.messages r.http.messageId = some m ∧
        m.response = some "hi") := by
  obtain ⟨r, h1, ⟨m, h2, h3⟩, -, -, -, -⟩ :=
    relay_success_response_precedence dbSample [] 7 1 "hello" 5
      (.replies 200 { response := some "hi", message := none }) agentOne
      { response := some "hi", message := none }
      (by decide) rfl rfl rfl (by decide)
  have hx : extractResponseText { response := some "hi", message := none } = "hi" := rfl
  exact ⟨r, h1, m, h2, by rw [h3, hx]⟩

/-- Claim C2: for every submission whose Forwarder call fails, the
persisted and delivered response equals the fixed unavailability
placeholder, and the submit call still returns success with a message
identifier — the failure is never surfaced as an HTTP error. -/
theorem relay_failure_unavailable
    (db : DB) (reg : Registry) (clientId agentId : Nat) (text : String)
    (now : Nat) (behavior : WebhookBehavior) (agent : Agent)
    (htext : text ≠ "")
    (hfind : findAgent db.agents agentId clientId = some agent)
    (hact : agent.is_active = true)
    (hweb : jsTruthy agent.webhook_url = true)
    (hfwd : forward behavior = .failed) :
    ∃ r, submit db reg clientId agentId text now behavior = .ok r ∧
      r.http = { messageId := nextId db.messages, message := sentOkMsg } ∧
      (∃ m, getMessage r.db.messages r.http.messageId = some m ∧
        m.response = some unavailableMsg) ∧
      (∀ d ∈ r.deliveries, d.2.response = unavailableMsg) := by
  refine ⟨_, submit_webhook_eq db reg clientId agentId text now behavior agent
      htext hfind hact hweb, rfl, ?_, ?_⟩
  · dsimp only
    rw [settleText_failed hfwd, submit_resolved_messages]
    exact ⟨_, submit_resolved_lookup db clientId agentId text now _, rfl⟩
  · intro d hd
    have h2 := deliver_snd hd
    rw [h2]
    exact settleText_failed hfwd

/-- Witness for C2: concrete run against `dbSample` where the webhook
call times out. -/
theorem relay_failure_unavailable_witness :
    ∃ r, submit dbSample [] 7 1 "hello" 5 .timeout = .ok r ∧
      r.http = { messageId := 1, message := sentOkMsg } ∧
      (∃ m, getMessage r.db.messages r.http.messageId = some m ∧
        m.response = some unavailableMsg) := by
  obtain ⟨r, h1, h2, h3, -⟩ :=
    relay_failure_unavailable dbSample [] 7 1 "hello" 5 .timeout agentOne
      (by decide) rfl rfl rfl rfl
  exact ⟨r, h1, h2, h3⟩

/-- Claim C3: for every valid submission to an active owned agent with no
webhook configured, the server synthesizes the fixed "not configured"
placeholder, persists it on the Message row, delivers it through the
Delivery Channel, contacts no external system (no webhook-call step in
the lifecycle trace), and the synchronous HTTP response carries only the
created message identifier and the fixed acknowledgement — never the
response text. -/
theorem relay_no_webhook_placeholder
    (db : DB) (reg : Registry) (clientId agentId : Nat) (text : String)
    (now : Nat) (behavior : WebhookBehavior) (agent : Agent)
    (htext : text ≠ "")
    (hfind : findAgent db.agents agentId clientId = some agent)
    (hact : agent.is_active = true)
    (hweb : agent.webhook_url = none) :
    ∃ r, submit db reg clientId agentId text now behavior = .ok r ∧
      (∃ m, getMessage r.db.messages r.http.messageId = some m ∧
        m.response = some noWebhookMsg) ∧
      r.deliveries = deliver reg clientId
        { messageId := nextId db.messages, agentId := agentId,
          response := noWebhookMsg } ∧
      (∀ p t2, RelayEvent.webhookCalled p t2 ∉ r.trace) ∧
      r.http = { messageId := nextId db.messages, message := sentOkMsg } ∧
      sentOkMsg ≠ noWebhookMsg := by
  have hjw : jsTruthy agent.webhook_url = false := by simp [jsTruthy, hweb]
  refine ⟨_, submit_nowebhook_eq db reg clientId agentId text now behavior agent
      htext hfind hact hjw, ?_, rfl, ?_, rfl, by decide⟩
  · dsimp only
    rw [submit_resolved_messages]
    exact ⟨_, submit_resolved_lookup db clientId agentId text now _, rfl⟩
  · intro p t2
    dsimp only
    simp

/-- Witness for C3: concrete run against `dbSample` targeting the agent
without a webhook URL. -/
theorem relay_no_webhook_placeholder_witness :
    ∃ r, submit dbSample [] 7 2 "hello" 5 .timeout = .ok r ∧
      (∃ m, getMessage r.db.messages r.http.messageId = some m ∧
        m.response = some noWebhookMsg) ∧
      (∀ p t2, RelayEvent.webhookCalled p t2 ∉ r.trace) ∧
      r.http = { messageId := 1, message := sentOkMsg } := by
  obtain ⟨r, h1, h2, -, h4, h5, -⟩ :=
    relay_no_webhook_placeholder dbSample [] 7 2 "hello" 5 .timeout agentTwo
      (by decide) rfl rfl rfl
  exact ⟨r, h1, h2, h4, h5⟩

/-- Claim C4: a submission to an agent that does not exist, is not owned
by the caller, or is inactive is rejected before any Message row is
created — the lookup conjoins the agent id with the caller's identity, so
a non-owned agent is indistinguishable from a missing one (not-found),
an inactive agent yields a validation error, and on every error return
the message table is unchanged. -/
theorem submit_rejects_bad_agent
    (db : DB) (reg : Registry) (clientId agentId : Nat) (text : String)
    (now : Nat) (behavior : WebhookBehavior) (htext : text ≠ "") :
    (findAgent db.agents agentId clientId = none →
      submit db reg clientId agentId text now behavior =
        .error (.notFound agentNotFoundMsg)) ∧
    ((∀ a ∈ db.agents, a.id = agentId → a.client_id ≠ clientId) →
      submit db reg clientId agentId text now behavior =
        .error (.notFound agentNotFoundMsg)) ∧
    (∀ agent, findAgent db.agents agentId clientId = some agent →
      agent.is_active = false →
      submit db reg clientId agentId text now behavior =
        .error (.validation agentInactiveMsg)) ∧
    (∀ e, submit db reg clientId agentId text now behavior = .error e →
      submitMessages db reg clientId agentId text now behavior = db.messages) := by
  refine ⟨?_, ?_, ?_, ?_⟩
  · intro h
    simp [submit, htext, h]
  · intro h
    have hn : findAgent db.agents agentId clientId = none := by
      apply List.find?_eq_none.mpr
      intro a ha
      simp only [Bool.and_eq_true, beq_iff_eq, not_and]
      exact fun h1 => h a ha h1
    simp [submit, htext, hn]
  · intro agent hfind hinact
    simp [submit, htext, hfind, hinact]
  · intro e he
    unfold submitMessages
    rw [he]

/-- Witness for C4: against `dbSample`, agent 99 does not exist, agent 4
exists but belongs to client 8, and agent 3 is inactive; all three are
rejected and the message table is untouched. -/
theorem submit_rejects_bad_agent_witness :
    submit dbSample [] 7 99 "hello" 5 .timeout =
      .error (.notFound agentNotFoundMsg) ∧
    submit dbSample [] 7 4 "hello" 5 .timeout =
      .error (.notFound agentNotFoundMsg) ∧
    submit dbSample [] 7 3 "hello" 5 .timeout =
      .error (.validation agentInactiveMsg) ∧
    submitMessages dbSample [] 7 99 "hello" 5 .timeout = dbSample.messages := by
  have h99 := submit_rejects_bad_agent dbSample [] 7 99 "hello" 5 .timeout (by decide)
  have h4 := submit_rejects_bad_agent dbSample [] 7 4 "hello" 5 .timeout (by decide)
  have h3 := submit_rejects_bad_agent dbSample [] 7 3 "hello" 5 .timeout (by decide)
  exact ⟨h99.1 rfl, h4.2.1 (by decide), h3.2.2.1 agentThree rfl rfl,
    h99.2.2.2 _ (h99.1 rfl)⟩

/-- Claim C5, counterexample: the claim says resolution is terminal — a
second resolution attempt for the same message identifier never
overwrites an already-set response. The persisted UPDATE has no guard on
the current value: at the concrete row already resolved to "first", a
second resolution attempt with "second" overwrites it. -/
theorem resolution_overwrite_counterexample :
    resolveMessage
        [{ id := 1, client_id := 7, agent_id := 1, message := "hello",
           response := some "first", timestamp := 5 }] 1 "second" =
      [{ id := 1, client_id := 7, agent_id := 1, message := "hello",
         response := some "second", timestamp := 5 }] ∧
    (some "second" : Option String) ≠ some "first" := ⟨rfl, by decide⟩

/-- Claim C5 (amended): within a single submission the created Message
row did not exist before (so its response is absent until the one
resolution event of the relay), and the lifecycle trace contains exactly
one resolution event; however resolution is not guarded — a second
resolution attempt for the same message identifier overwrites the
already-set response. -/
theorem message_resolution_single_but_unguarded
    (db : DB) (reg : Registry) (clientId agentId : Nat) (text : String)
    (now : Nat) (behavior : WebhookBehavior) (agent : Agent)
    (htext : text ≠ "")
    (hfind : findAgent db.agents agentId clientId = some agent)
    (hact : agent.is_active = true) :
    ∃ r, submit db reg clientId agentId text now behavior = .ok r ∧
      getMessage db.messages r.http.messageId = none ∧
      (r.trace.filter (fun e => match e with
        | RelayEvent.resolutionPersisted _ _ => true
        | _ => false)).length = 1 ∧
      (∀ msgs i t1 t2 m, m ∈ resolveMessage (resolveMessage msgs i t1) i t2 →
        m.id = i → m.response = some t2) := by
  cases hw : jsTruthy agent.webhook_url with
  | true =>
    exact ⟨_, submit_webhook_eq db reg clientId agentId text now behavior agent
      htext hfind hact hw, getMessage_nextId db.messages, rfl,
      resolveMessage_twice_overwrite⟩
  | false =>
    exact ⟨_, submit_nowebhook_eq db reg clientId agentId text now behavior agent
      htext hfind hact hw, getMessage_nextId db.messages, rfl,
      resolveMessage_twice_overwrite⟩

/-- Witness for C5: concrete run against `dbSample`. -/
theorem message_resolution_single_but_unguarded_witness :
    ∃ r, submit dbSample [] 7 1 "hello" 5 .timeout = .ok r ∧
      getMessage dbSample.messages r.http.messageId = none ∧
      (r.trace.filter (fun e => match e with
        | RelayEvent.resolutionPersisted _ _ => true
        | _ => false)).length = 1 := by
  obtain ⟨r, h1, h2, h3, -⟩ :=
    message_resolution_single_but_unguarded dbSample [] 7 1 "hello" 5 .timeout
      agentOne (by decide) rfl rfl
  exact ⟨r, h1, h2, h3⟩

/-- Claim C6: within one message's lifecycle the four relay steps happen
in strict order — persistence of the created row, then the Forwarder
invocation, then persistence of the resolution, then delivery to the
Delivery Channel: the lifecycle trace of every webhook submission is
exactly that four-step sequence. -/
theorem relay_lifecycle_order
    (db : DB) (reg : Registry) (clientId agentId : Nat) (text : String)
    (now : Nat) (behavior : WebhookBehavior) (agent : Agent)
    (htext : text ≠ "")
    (hfind : findAgent db.agents agentId clientId = some agent)
    (hact : agent.is_active = true)
    (hweb : jsTruthy agent.webhook_url = true) :
    ∃ r, submit db reg clientId agentId text now behavior = .ok r ∧
      r.trace =
        [RelayEvent.messageCreated (nextId db.messages),
         RelayEvent.webhookCalled
           { message := text, client_id := clientId, agent_id := agentId,
             message_id := nextId db.messages, timestamp := now } axiosTimeoutMs,
         RelayEvent.resolutionPersisted (nextId db.messages) (settleText behavior),
         RelayEvent.deliveredEvent clientId
           { messageId := nextId db.messages, agentId := agentId,
             response := settleText behavior }] :=
  ⟨_, submit_webhook_eq db reg clientId agentId text now behavior agent
    htext hfind hact hweb, rfl⟩

/-- Witness for C6: concrete run against `dbSample`. -/
theorem relay_lifecycle_order_witness :
    ∃ r, submit dbSample [] 7 1 "hello" 5 .timeout = .ok r ∧
      r.trace =
        [RelayEvent.messageCreated 1,
         RelayEvent.webhookCalled
           { message := "hello", client_id := 7, agent_id := 1,
             message_id := 1, timestamp := 5 } axiosTimeoutMs,
         RelayEvent.resolutionPersisted 1 unavailableMsg,
         RelayEvent.deliveredEvent 7
           { messageId := 1, agentId := 1, response := unavailableMsg }] := by
  obtain ⟨r, h1, h2⟩ :=
    relay_lifecycle_order dbSample [] 7 1 "hello" 5 .timeout agentOne
      (by decide) rfl rfl rfl
  exact ⟨r, h1, h2⟩

/-- Claim C7: every submission that contacts a webhook performs exactly
one outbound call — the lifecycle trace contains exactly one call step,
carrying the fixed payload and the fixed 10-second (10000 ms) bound, with
no retry for any behaviour of the endpoint — and the outcome is
classified into exactly one of two cases: answered with the reply body
for a reply within the bound with a 2xx status, failed on timeout,
connection error, or non-success status. -/
theorem forwarder_single_call_classification
    (db : DB) (reg : Registry) (clientId agentId : Nat) (text : String)
    (now : Nat) (behavior : WebhookBehavior) (agent : Agent)
    (htext : text ≠ "")
    (hfind : findAgent db.agents agentId clientId = some agent)
    (hact : agent.is_active = true)
    (hweb : jsTruthy agent.webhook_url = true) :
    ∃ r, submit db reg clientId agentId text now behavior = .ok r ∧
      (r.trace.filter (fun e => match e with
        | RelayEvent.webhookCalled _ _ => true
        | _ => false)) =
        [RelayEvent.webhookCalled
          { message := text, client_id := clientId, agent_id := agentId,
            message_id := nextId db.messages, timestamp := now } axiosTimeoutMs] ∧
      axiosTimeoutMs = 10000 ∧
      (∀ b : WebhookBehavior,
        (∃ body, forward b = .answered body) ∨ forward b = .failed) ∧
      (∀ s body, 200 ≤ s → s < 300 → forward (.replies s body) = .answered body) ∧
      (∀ s body, ¬(200 ≤ s ∧ s < 300) → forward (.replies s body) = .failed) ∧
      forward .timeout = .failed ∧ forward .connError = .failed := by
  refine ⟨_, submit_webhook_eq db reg clientId agentId text now behavior agent
      htext hfind hact hweb, rfl, rfl, ?_, ?_, ?_, rfl, rfl⟩
  · intro b
    cases b with
    | replies s body =>
      by_cases h : 200 ≤ s ∧ s < 300
      · exact .inl ⟨body, by simp [forward, h]⟩
      · exact .inr (by simp [forward, h])
    | timeout => exact .inr rfl
    | connError => exact .inr rfl
  · intro s body h1 h2
    simp [forward, h1, h2]
  · intro s body h
    simp [forward, h]

/-- Witness for C7: concrete run against `dbSample`. -/
theorem forwarder_single_call_classification_witness :
    ∃ r, submit dbSample [] 7 1 "hello" 5
        (.replies 500 { response := none, message := none }) = .ok r ∧
      (r.trace.filter (fun e => match e with
        | RelayEvent.webhookCalled _ _ => true
        | _ => false)) =
        [RelayEvent.webhookCalled
          { message := "hello", client_id := 7, agent_id := 1,
            message_id := 1, timestamp := 5 } axiosTimeoutMs] ∧
      axiosTimeoutMs = 10000 := by
  obtain ⟨r, h1, h2, h3, -⟩ :=
    forwarder_single_call_classification dbSample [] 7 1 "hello" 5
      (.replies 500 { response := none, message := none }) agentOne
      (by decide) rfl rfl rfl
  exact ⟨r, h1, h2, h3⟩

/-- Claim C8: when the addressed client identity has zero registered live
connections, the realtime event is silently dropped (the delivery list is
empty, with no error), but the response is still persisted on the Message
row and that row — response included — is returned by a subsequent
history fetch for that client and agent. -/
theorem silent_drop_still_persisted
    (db : DB) (reg : Registry) (clientId agentId : Nat) (text : String)
    (now : Nat) (behavior : WebhookBehavior) (agent : Agent)
    (htext : text ≠ "")
    (hfind : findAgent db.agents agentId clientId = some agent)
    (hact : agent.is_active = true)
    (hreg : ∀ s, (s, clientId) ∉ reg) :
    ∃ r rt, submit db reg clientId agentId text now behavior = .ok r ∧
      r.deliveries = [] ∧
      (∃ m, getMessage r.db.messages r.http.messageId = some m ∧
        m.response = some rt ∧ m ∈ history r.db clientId agentId) := by
  cases hw : jsTruthy agent.webhook_url with
  | true =>
    refine ⟨_, settleText behavior,
      submit_webhook_eq db reg clientId agentId text now behavior agent
        htext hfind hact hw, deliver_empty hreg _, ?_⟩
    dsimp only
    rw [submit_resolved_messages]
    refine ⟨_, submit_resolved_lookup db clientId agentId text now _, rfl, ?_⟩
    exact mem_history (List.mem_append_right _ (List.mem_singleton_self _)) rfl rfl
  | false =>
    refine ⟨_, noWebhookMsg,
      submit_nowebhook_eq db reg clientId agentId text now behavior agent
        htext hfind hact hw, deliver_empty hreg _, ?_⟩
    dsimp only
    rw [submit_resolved_messages]
    refine ⟨_, submit_resolved_lookup db clientId agentId text now _, rfl, ?_⟩
    exact mem_history (List.mem_append_right _ (List.mem_singleton_self _)) rfl rfl

/-- Witness for C8: concrete run against `dbSample` with a registry that
holds a connection for client 3 but none for the submitting client 7. -/
theorem silent_drop_still_persisted_witness :
    ∃ r rt, submit dbSample [(9, 3)] 7 1 "hello" 5 .timeout = .ok r ∧
      r.deliveries = [] ∧
      (∃ m, getMessage r.db.messages r.http.messageId = some m ∧
        m.response = some rt ∧ m ∈ history r.db 7 1) := by
  exact silent_drop_still_persisted dbSample [(9, 3)] 7 1 "hello" 5 .timeout
    agentOne (by decide) rfl rfl
    (by intro s hs; simp at hs)

/-- Claim C9: deleting a client removes every agent and every message
owned by that client, and deleting an agent removes every message
referencing that agent; under referential integrity, neither delete
operation leaves an agent or message row with a dangling owner
reference. -/
theorem cascade_delete_no_dangling (db : DB) (cid aid acid : Nat)
    (hint : Integrity db) :
    (∀ a ∈ (deleteClient db cid).agents, a.client_id ≠ cid) ∧
    (∀ m ∈ (deleteClient db cid).messages, m.client_id ≠ cid) ∧
    (∀ c ∈ (deleteClient db cid).clients, c.id ≠ cid) ∧
    Integrity (deleteClient db cid) ∧
    (db.agents.any (fun a => a.id == aid && a.client_id == acid) = true →
      ∀ m ∈ (deleteAgent db aid acid).messages, m.agent_id ≠ aid) ∧
    Integrity (deleteAgent db aid acid) := by
  obtain ⟨hia, him⟩ := hint
  refine ⟨?_, ?_, ?_, ?_, ?_, ?_⟩
  · intro a ha
    have := (List.mem_filter.mp ha).2
    simpa using this
  · intro m hm
    have := (List.mem_filter.mp hm).2
    simp only [Bool.and_eq_true, Bool.not_eq_true', beq_eq_false_iff_ne] at this
    exact this.1
  · intro c hc
    have := (List.mem_filter.mp hc).2
    simpa using this
  · constructor
    · intro a ha
      obtain ⟨haa, hane⟩ := List.mem_filter.mp ha
      simp only [Bool.not_eq_true', beq_eq_false_iff_ne] at hane
      obtain ⟨c, hc, hcid⟩ := hia a haa
      refine ⟨c, List.mem_filter.mpr ⟨hc, ?_⟩, hcid⟩
      simp [hcid, hane]
    · intro m hm
      obtain ⟨hmm, hcond⟩ := List.mem_filter.mp hm
      simp only [Bool.and_eq_true, Bool.not_eq_true'] at hcond
      obtain ⟨hc1, hc2⟩ := hcond
      rw [beq_eq_false_iff_ne] at hc1
      obtain ⟨⟨c, hc, hcid⟩, ⟨a, haa, haid⟩⟩ := him m hmm
      have hacl : a.client_id ≠ cid := by
        intro hacl
        have : db.agents.any (fun a => a.id == m.agent_id && a.client_id == cid) = true :=
          List.any_eq_true.mpr ⟨a, haa, by simp [haid, hacl]⟩
        rw [this] at hc2
        exact absurd hc2 (by decide)
      constructor
      · refine ⟨c, List.mem_filter.mpr ⟨hc, ?_⟩, hcid⟩
        simp [hcid, hc1]
      · refine ⟨a, List.mem_filter.mpr ⟨haa, ?_⟩, haid⟩
        simp [hacl]
  · intro hfound m hm
    unfold deleteAgent at hm
    rw [if_pos hfound] at hm
    have := (List.mem_filter.mp hm).2
    simpa using this
  · by_cases hfound :
      db.agents.any (fun a => a.id == aid && a.client_id == acid) = true
    · have hda : deleteAgent db aid acid =
        { db with
          agents := db.agents.filter (fun a => !(a.id == aid && a.client_id == acid)),
          messages := db.messages.filter (fun m => !(m.agent_id == aid)) } := by
        unfold deleteAgent
        rw [if_pos hfound]
      rw [hda]
      constructor
      · intro a ha
        obtain ⟨haa, -⟩ := List.mem_filter.mp ha
        exact hia a haa
      · intro m hm
        obtain ⟨hmm, hcond⟩ := List.mem_filter.mp hm
        have hne : m.agent_id ≠ aid := by simpa using hcond
        obtain ⟨⟨c, hc, hcid⟩, ⟨a, haa, haid⟩⟩ := him m hmm
        refine ⟨⟨c, hc, hcid⟩, ⟨a, List.mem_filter.mpr ⟨haa, ?_⟩, haid⟩⟩
        simp [haid, hne]
    · have hda : deleteAgent db aid acid = db := by
        unfold deleteAgent
        rw [if_neg hfound]
      rw [hda]
      exact ⟨hia, him⟩

/-- Witness for C9: concrete cascade deletes on `dbSample`, which
satisfies referential integrity. -/
theorem cascade_delete_no_dangling_witness :
    (∀ a ∈ (deleteClient dbSample 7).agents, a.client_id ≠ 7) ∧
    (∀ m ∈ (deleteClient dbSample 7).messages, m.client_id ≠ 7) ∧
    Integrity (deleteClient dbSample 7) ∧
    Integrity (deleteAgent dbSample 1 7) := by
  obtain ⟨h1, h2, -, h4, -, h6⟩ :=
    cascade_delete_no_dangling dbSample 7 1 7
      (by refine ⟨?_, ?_⟩ <;> decide)
  exact ⟨h1, h2, h4, h6⟩

/-- Claim C10 (implicit): the realtime join event performs no
authentication or ownership check — any socket that claims an arbitrary
client identity is registered for that identity's room, and every
subsequent `agent_response` event delivered to that identity is also
sent to that socket, regardless of whether the connection belongs to the
claimed client (the statement quantifies over every socket and every
identity, with no ownership hypothesis). -/
theorem join_room_without_auth (reg : Registry) (socketId clientId : Nat)
    (ev : AgentResponseEvent) :
    (socketId, clientId) ∈ joinClientRoom reg socketId clientId ∧
    (∀ reg2 : Registry, (socketId, clientId) ∈ reg2 →
      (socketId, ev) ∈ deliver reg2 clientId ev) := by
  constructor
  · unfold joinClientRoom
    by_cases h : (socketId, clientId) ∈ reg
    · rw [if_pos h]
      exact h
    · rw [if_neg h]
      exact List.mem_cons_self _ _
  · intro reg2 h2
    unfold deliver
    exact List.mem_map.mpr ⟨(socketId, clientId),
      List.mem_filter.mpr ⟨h2, by simp⟩, rfl⟩

/-- Witness for C10: socket 42, which does not belong to client 7, joins
client 7's room on an empty registry and then receives the event
delivered to client 7. -/
theorem join_room_without_auth_witness :
    (42, 7) ∈ joinClientRoom [] 42 7 ∧
    (42, evSample) ∈ deliver (joinClientRoom [] 42 7) 7 evSample := by
  refine ⟨(join_room_without_auth [] 42 7 evSample).1, ?_⟩
  exact (join_room_without_auth [] 42 7 evSample).2 _
    (join_room_without_auth [] 42 7 evSample).1

end RPL
